import Mathlib

/-!
# xfields: `xfields/headers/constants.h`

The header consists only of preprocessing directives: an include guard
(`#ifndef XFIELDS_CONSTANTS_H` / `#define XFIELDS_CONSTANTS_H` / `#endif`) around sixteen
blocks `#if !defined( NAME )` / `#define NAME literal` / `#endif`.

The embedding has three layers.

* A small model of the C preprocessor restricted to the directives the header uses:
  an environment of object-like definitions, a stack for conditional inclusion, and an
  error for an incompatible redefinition or unbalanced conditionals.
* The header itself, as the list of its directives in file order, with each replacement
  list kept as the text written in the file.
* A reader for the decimal floating constants that appear as replacement lists, turning
  the text into an exact rational number.
-/

namespace Xfields

/-! ## Preprocessor model -/

/-- The preprocessing directives that occur in `constants.h`. -/
inductive Directive where
  /-- The line `#ifndef NAME`. -/
  | ifndefLine (name : String)
  /-- The line `#if !defined( NAME )`. -/
  | ifNotDefinedLine (name : String)
  /-- The line `#define NAME body` of an object-like definition; `body` is the
  replacement list as written (empty for a bare `#define NAME`). -/
  | defineLine (name : String) (body : String)
  /-- The line `#endif`. -/
  | endifLine
  deriving DecidableEq

/-- The preprocessor's table of object-like definitions: the replacement list of
each defined name, `none` for a name that is not defined. -/
abbrev Env := String → Option String

/-- The environment with nothing defined. -/
def Env.empty : Env := fun _ => none

/-- The environment after `#define name body`. -/
def Env.define (env : Env) (name body : String) : Env :=
  fun n => if n = name then some body else env n

/-- Whether `name` is defined, the operator `defined( name )`. -/
def Env.isDefined (env : Env) (name : String) : Bool := (env name).isSome

/-- Diagnostics of the preprocessor model. -/
inductive PPError where
  /-- A `#define` of a name already defined with a different replacement list. -/
  | redefinition (name : String)
  /-- An `#endif` with no open conditional. -/
  | endifWithoutIf
  /-- End of file inside a conditional. -/
  | unterminatedConditional
  deriving DecidableEq

/-- State of the preprocessor while it reads a file. -/
structure PPState where
  /-- The current definitions. -/
  env : Env
  /-- One entry per open conditional, innermost first: whether its condition held. -/
  conds : List Bool
  /-- The names of the `#define` directives executed so far, in order. -/
  executed : List String

/-- A group is processed when the conditions of all open conditionals held. -/
def PPState.active (st : PPState) : Bool := st.conds.all id

/-- Process one directive. -/
def step (st : PPState) : Directive → Except PPError PPState
  | .ifndefLine name =>
      .ok { st with conds := (!st.env.isDefined name) :: st.conds }
  | .ifNotDefinedLine name =>
      .ok { st with conds := (!st.env.isDefined name) :: st.conds }
  | .defineLine name body =>
      if st.active then
        match st.env name with
        | none =>
            .ok { st with env := st.env.define name body, executed := st.executed ++ [name] }
        | some old =>
            if old = body then .ok { st with executed := st.executed ++ [name] }
            else .error (.redefinition name)
      else .ok st
  | .endifLine =>
      match st.conds with
      | [] => .error .endifWithoutIf
      | _ :: rest => .ok { st with conds := rest }

/-- Process the directives of a file in order. -/
def run : List Directive → PPState → Except PPError PPState
  | [], st => .ok st
  | d :: ds, st =>
      match step st d with
      | .ok st1 => run ds st1
      | .error e => .error e

/-- Result of including a file in the environment `env`: the environment afterwards
together with the names whose `#define` was executed by this inclusion. -/
def includeFile (file : List Directive) (env : Env) : Except PPError (Env × List String) :=
  match run file { env := env, conds := [], executed := [] } with
  | .ok st => if st.conds.isEmpty then .ok (st.env, st.executed)
              else .error .unterminatedConditional
  | .error e => .error e

/-! ## The header -/

/-- The directives of `xfields/headers/constants.h`, in file order. -/
def constants_h : List Directive :=
  [ .ifndefLine "XFIELDS_CONSTANTS_H",
    .defineLine "XFIELDS_CONSTANTS_H" "",
    .ifNotDefinedLine "C_LIGHT",
    .defineLine "C_LIGHT" "( 299792458.0 )",
    .endifLine,
    .ifNotDefinedLine "EPSILON_0",
    .defineLine "EPSILON_0" "(8.854187817620e-12)",
    .endifLine,
    .ifNotDefinedLine "PI",
    .defineLine "PI" "(3.1415926535897932384626433832795028841971693993751)",
    .endifLine,
    .ifNotDefinedLine "DEG2RAD",
    .defineLine "DEG2RAD" "(0.0174532925199432957692369076848861271344287188854)",
    .endifLine,
    .ifNotDefinedLine "RAD2DEG",
    .defineLine "RAD2DEG" "(57.29577951308232087679815481410517033240547246656442)",
    .endifLine,
    .ifNotDefinedLine "SQRT_PI",
    .defineLine "SQRT_PI" "(1.7724538509055160272981674833411451827975494561224)",
    .endifLine,
    .ifNotDefinedLine "QELEM",
    .defineLine "QELEM" "(1.60217662e-19)",
    .endifLine,
    .ifNotDefinedLine "MPROTON_GEVPERC",
    .defineLine "MPROTON_GEVPERC" "(0.93827208816)",
    .endifLine,
    .ifNotDefinedLine "MELECTRON_GEVPERC",
    .defineLine "MELECTRON_GEVPERC" "(0.00051099895000)",
    .endifLine,
    .ifNotDefinedLine "MELECTRON_KG",
    .defineLine "MELECTRON_KG" "(9.1093837015e-31)",
    .endifLine,
    .ifNotDefinedLine "ALPHA",
    .defineLine "ALPHA" "(7.29735257e-3)",
    .endifLine,
    .ifNotDefinedLine "HBAR_GEVS",
    .defineLine "HBAR_GEVS" "(6.582119569e-25)",
    .endifLine,
    .ifNotDefinedLine "TWO_OVER_SQRT_PI",
    .defineLine "TWO_OVER_SQRT_PI"
      "(1.128379167095512573896158903121545171688101258657997713688171443418)",
    .endifLine,
    .ifNotDefinedLine "SQRT_TWO",
    .defineLine "SQRT_TWO" "(1.414213562373095048801688724209698078569671875376948073176679738)",
    .endifLine,
    .ifNotDefinedLine "REDUCED_COMPTON",
    .defineLine "REDUCED_COMPTON" "(3.8615926796089057e-13)",
    .endifLine,
    .ifNotDefinedLine "REAL_EPSILON",
    .defineLine "REAL_EPSILON" "2.22044604925031e-16",
    .endifLine,
    .endifLine ]

/-- Including `constants.h`. -/
def includeHeader (env : Env) : Except PPError (Env × List String) :=
  includeFile constants_h env

/-- Including `constants.h` `k` times in a row; the result is the final environment and
the names defined by the last inclusion. -/
def includeTimes : Nat → Env → Except PPError (Env × List String)
  | 0, env => .ok (env, [])
  | k + 1, env =>
      match includeTimes k env with
      | .ok (env1, _) => includeHeader env1
      | .error e => .error e

/-- The replacement list a `#define` of `name` carries. -/
def defineOf (name : String) : Directive → Option String
  | .defineLine n body => if n = name then some body else none
  | _ => none

/-- The replacement list the header gives `name`: that of the first `#define name` in the
file, whether or not the directive is executed. -/
def headerDefault (name : String) : Option String :=
  constants_h.findSome? (defineOf name)

/-! ## Decimal floating constants -/

/-- A decimal floating constant read exactly: the number `mantissa * 10 ^ exponent`. -/
structure DecLit where
  mantissa : Nat
  exponent : Int
  deriving DecidableEq

/-- The rational number a literal denotes. -/
def DecLit.toRat (l : DecLit) : ℚ := (l.mantissa : ℚ) * (10 : ℚ) ^ l.exponent

/-- Read a maximal run of decimal digits: the number read so far becomes
`acc * 10 ^ k + digits`, `cnt` counts the digits, and the unread rest is returned. -/
def readDigits : List Char → Nat → Nat → Nat × Nat × List Char
  | [], acc, cnt => (acc, cnt, [])
  | c :: cs, acc, cnt =>
      if c.isDigit then readDigits cs (acc * 10 + (c.toNat - 48)) (cnt + 1)
      else (acc, cnt, c :: cs)

/-- Read an exponent part `e`, optional sign, digits; no exponent part reads as `0`.
Anything else (a suffix, trailing text, an `e` without digits) is rejected. -/
def readExponent : List Char → Option Int
  | [] => some 0
  | c :: cs =>
      if c = 'e' ∨ c = 'E' then
        match cs with
        | '-' :: ds =>
            match readDigits ds 0 0 with
            | (v, _ + 1, []) => some (-(v : Int))
            | _ => none
        | '+' :: ds =>
            match readDigits ds 0 0 with
            | (v, _ + 1, []) => some (v : Int)
            | _ => none
        | ds =>
            match readDigits ds 0 0 with
            | (v, _ + 1, []) => some (v : Int)
            | _ => none
      else none

/-- Read a decimal floating constant `digits . digits exponent?` (at least one digit
around the point), or a decimal integer constant `digits`. -/
def readDecimal (cs : List Char) : Option DecLit :=
  match readDigits cs 0 0 with
  | (ip, ni, '.' :: rest) =>
      match readDigits rest ip 0 with
      | (m, nf, rest1) =>
          if ni + nf = 0 then none
          else (readExponent rest1).map fun e => { mantissa := m, exponent := e - nf }
  | (ip, ni, rest) =>
      if ni = 0 then none
      else (readExponent rest).map fun e => { mantissa := ip, exponent := e }

/-- Drop blanks at both ends. -/
def trimBlanks (cs : List Char) : List Char :=
  ((cs.dropWhile (· = ' ')).reverse.dropWhile (· = ' ')).reverse

/-- The literal a replacement list consists of: a decimal constant, optionally enclosed
in one pair of parentheses, with optional blanks around the tokens. -/
def replacementLit (body : String) : Option DecLit :=
  match trimBlanks body.toList with
  | '(' :: rest =>
      match rest.reverse with
      | ')' :: inner => readDecimal (trimBlanks inner.reverse)
      | _ => none
  | cs => readDecimal cs

/-- The value of a replacement list that is a (parenthesised) decimal constant. -/
def replacementValue (body : String) : Option ℚ :=
  (replacementLit body).map DecLit.toRat

/-- The value of the header's default for `name`. -/
def defaultValue (name : String) : Option ℚ :=
  (headerDefault name).bind replacementValue

/-- The literal of the header's default for `name`. -/
def defaultLit (name : String) : Option DecLit :=
  (headerDefault name).bind replacementLit

/-! ## The table of section 3 of the specification -/

/-- A row of the table of constants: the name, the value as listed, and, for a value
listed with a trailing ellipsis, the number of decimal places that are listed. -/
structure SpecRow where
  name : String
  listed : ℚ
  ellipsisPlaces : Option Nat
  deriving DecidableEq

/-- A value agrees with a row when it equals the listed value, for a value listed in
full, and when it is within one unit of the last listed decimal place of the listed
digits, for a value listed with an ellipsis. -/
def SpecRow.agrees (row : SpecRow) (q : ℚ) : Prop :=
  match row.ellipsisPlaces with
  | none => q = row.listed
  | some k => |q - row.listed| ≤ 1 / 10 ^ k

instance (row : SpecRow) (q : ℚ) : Decidable (row.agrees q) := by
  unfold SpecRow.agrees
  cases row.ellipsisPlaces <;> exact inferInstance

/-- The table of section 3, row by row, with the values as listed there. -/
def specTable : List SpecRow :=
  [ ⟨"C_LIGHT", 299792458.0, none⟩,
    ⟨"EPSILON_0", 8.854187817620e-12, none⟩,
    ⟨"PI", 3.14159265358979323846, some 20⟩,
    ⟨"DEG2RAD", 0.01745329251994329577, some 20⟩,
    ⟨"RAD2DEG", 57.2957795130823208768, some 19⟩,
    ⟨"SQRT_PI", 1.77245385090551602730, some 20⟩,
    ⟨"QELEM", 1.60217662e-19, none⟩,
    ⟨"MPROTON_GEVPERC", 0.93827208816, none⟩,
    ⟨"MELECTRON_GEVPERC", 0.00051099895000, none⟩,
    ⟨"MELECTRON_KG", 9.1093837015e-31, none⟩,
    ⟨"ALPHA", 7.29735257e-3, none⟩,
    ⟨"HBAR_GEVS", 6.582119569e-25, none⟩,
    ⟨"TWO_OVER_SQRT_PI", 1.12837916709551257390, some 20⟩,
    ⟨"SQRT_TWO", 1.41421356237309504880, some 20⟩,
    ⟨"REDUCED_COMPTON", 3.8615926796089057e-13, none⟩,
    ⟨"REAL_EPSILON", 2.22044604925031e-16, none⟩ ]

/-! ## Derived notions used to state the properties -/

/-- The name of the include guard. -/
def guardName : String := "XFIELDS_CONSTANTS_H"

/-- The sixteen constant names the header provides. -/
def constantNames : List String :=
  [ "C_LIGHT", "EPSILON_0", "PI", "DEG2RAD", "RAD2DEG", "SQRT_PI", "QELEM",
    "MPROTON_GEVPERC", "MELECTRON_GEVPERC", "MELECTRON_KG", "ALPHA", "HBAR_GEVS",
    "TWO_OVER_SQRT_PI", "SQRT_TWO", "REDUCED_COMPTON", "REAL_EPSILON" ]

/-- What `name` resolves to after `constants.h` has been included in `env`: its
replacement list, or `none` when the name is still not defined. -/
def resolvedAfterInclude (env : Env) (name : String) : Except PPError (Option String) :=
  match includeHeader env with
  | .ok (env1, _) => .ok (env1 name)
  | .error e => .error e

/-- The environment in which exactly the names of `S` are defined, `name` to `val name`. -/
def Env.ofDefs (S : List String) (val : String → String) : Env :=
  fun n => if n ∈ S then some (val n) else none

/-- The directive lines of a run of guarded definitions. -/
def guardedBlocks : List (String × String) → List Directive
  | [] => []
  | (n, b) :: t => .ifNotDefinedLine n :: .defineLine n b :: .endifLine :: guardedBlocks t

/-- The `#define` directives of a file as pairs of name and replacement list. -/
def definesOf (file : List Directive) : List (String × String) :=
  file.filterMap fun d =>
    match d with
    | .defineLine n b => some (n, b)
    | _ => none

/-- The sixteen guarded definitions of the header: all its `#define`s but the guard's. -/
def defaultsTable : List (String × String) := (definesOf constants_h).tail

/-- The effect of one guarded definition on the state of an active group. -/
def guardedDefine (st : PPState) (p : String × String) : PPState :=
  if st.env.isDefined p.1 then st
  else { st with env := st.env.define p.1 p.2, executed := st.executed ++ [p.1] }

end Xfields

namespace Xfields

/-! ## The preprocessor on guarded definitions -/

theorem run_append (xs ys : List Directive) (st : PPState) :
    run (xs ++ ys) st =
      match run xs st with
      | .ok st1 => run ys st1
      | .error e => .error e := by
  induction xs generalizing st with
  | nil => simp [run]
  | cons d ds ih =>
      simp only [List.cons_append, run]
      cases step st d with
      | ok st1 => simpa using ih st1
      | error e => rfl

/-- A guarded definition in an active group defines the name exactly when it is not
yet defined, and leaves the conditional stack as it was. -/
theorem run_guarded_block (st : PPState) (h : st.active = true) (n b : String)
    (rest : List Directive) :
    run (.ifNotDefinedLine n :: .defineLine n b :: .endifLine :: rest) st
      = run rest (guardedDefine st (n, b)) := by
  unfold PPState.active at h
  cases hn : st.env n with
  | none =>
      simp [run, step, guardedDefine, Env.isDefined, PPState.active, hn, h]
  | some old =>
      simp [run, step, guardedDefine, Env.isDefined, PPState.active, hn]

/-- In a skipped group a guarded definition changes nothing. -/
theorem run_guarded_block_skipped (st : PPState) (h : st.active = false) (n b : String)
    (rest : List Directive) :
    run (.ifNotDefinedLine n :: .defineLine n b :: .endifLine :: rest) st = run rest st := by
  unfold PPState.active at h
  simp [run, step, PPState.active, h]

theorem guardedDefine_conds (st : PPState) (p : String × String) :
    (guardedDefine st p).conds = st.conds := by
  unfold guardedDefine
  split <;> rfl

theorem guardedDefine_active (st : PPState) (p : String × String) :
    (guardedDefine st p).active = st.active := by
  simp [PPState.active, guardedDefine_conds]

theorem foldl_guardedDefine_conds (tbl : List (String × String)) (st : PPState) :
    (tbl.foldl guardedDefine st).conds = st.conds := by
  induction tbl generalizing st with
  | nil => rfl
  | cons p t ih => simp [List.foldl, ih, guardedDefine_conds]

theorem run_guardedBlocks (tbl : List (String × String)) (st : PPState)
    (h : st.active = true) (rest : List Directive) :
    run (guardedBlocks tbl ++ rest) st = run rest (tbl.foldl guardedDefine st) := by
  induction tbl generalizing st with
  | nil => rfl
  | cons p t ih =>
      obtain ⟨n, b⟩ := p
      simp only [guardedBlocks, List.cons_append, List.foldl]
      rw [run_guarded_block st h]
      exact ih _ (by rw [guardedDefine_active]; exact h)

theorem run_guardedBlocks_skipped (tbl : List (String × String)) (st : PPState)
    (h : st.active = false) (rest : List Directive) :
    run (guardedBlocks tbl ++ rest) st = run rest st := by
  induction tbl with
  | nil => rfl
  | cons p t ih =>
      obtain ⟨n, b⟩ := p
      simp only [guardedBlocks, List.cons_append]
      rw [run_guarded_block_skipped st h]
      exact ih

/-- The environment after a run of guarded definitions: a name keeps its definition if
it had one, and otherwise gets that of the first guarded definition naming it. -/
theorem foldl_guardedDefine_env (tbl : List (String × String)) (st : PPState) (n : String) :
    (tbl.foldl guardedDefine st).env n
      = (st.env n).orElse fun _ => (guardedBlocks tbl).findSome? (defineOf n) := by
  induction tbl generalizing st with
  | nil => cases h : st.env n <;> simp [guardedBlocks, h]
  | cons p t ih =>
      obtain ⟨m, b⟩ := p
      simp only [List.foldl, guardedBlocks, List.findSome?, defineOf]
      rw [ih]
      unfold guardedDefine
      by_cases hm : m = n
      · subst hm
        cases hd : st.env m with
        | none => simp [Env.isDefined, Env.define, hd]
        | some old => simp [Env.isDefined, hd]
      · cases hd : st.env m with
        | none =>
            have : n ≠ m := fun h => hm h.symm
            simp [Env.isDefined, Env.define, hd, hm, this]
        | some old => simp [Env.isDefined, hd, hm]

/-- The names defined by a run of guarded definitions with pairwise different names:
those not defined before, in file order. -/
theorem foldl_guardedDefine_executed (tbl : List (String × String)) (st : PPState)
    (hnd : (tbl.map Prod.fst).Nodup) :
    (tbl.foldl guardedDefine st).executed
      = st.executed ++ (tbl.map Prod.fst).filter (fun n => !st.env.isDefined n) := by
  induction tbl generalizing st with
  | nil => simp
  | cons p t ih =>
      obtain ⟨m, b⟩ := p
      simp only [List.map_cons, List.nodup_cons] at hnd
      simp only [List.foldl, List.map_cons]
      rw [ih _ hnd.2]
      unfold guardedDefine
      cases hd : st.env.isDefined m with
      | true => simp [List.filter, hd]
      | false =>
          simp only [Bool.false_eq_true, if_false, List.filter, hd, Bool.not_false,
            List.append_assoc, List.singleton_append, List.append_cancel_left_eq,
            List.cons.injEq, true_and]
          apply List.filter_congr
          intro x hx
          have hxm : x ≠ m := fun h => hnd.1 (h ▸ hx)
          simp [Env.isDefined, Env.define, hxm]

/-! ## The header in closed form -/

theorem constants_h_shape :
    constants_h
      = .ifndefLine guardName :: .defineLine guardName "" ::
          (guardedBlocks defaultsTable ++ [.endifLine]) := by
  decide

theorem defaultsTable_names : defaultsTable.map Prod.fst = constantNames := by
  decide

theorem guardName_not_constant : guardName ∉ constantNames := by
  decide

theorem headerDefault_eq (n : String) :
    headerDefault n
      = if guardName = n then some ""
        else (guardedBlocks defaultsTable).findSome? (defineOf n) := by
  unfold headerDefault
  rw [constants_h_shape]
  simp only [List.findSome?, defineOf]
  by_cases h : guardName = n
  · simp [h]
  · simp [h, List.findSome?_append, defineOf]

theorem run_guard_defined (env : Env) (v : String) (hg : env guardName = some v)
    (rest : List Directive) :
    run (.ifndefLine guardName :: .defineLine guardName "" :: rest)
        { env := env, conds := [], executed := [] }
      = run rest { env := env, conds := [false], executed := [] } := by
  simp [run, step, Env.isDefined, hg, PPState.active]

theorem run_guard_undefined (env : Env) (hg : env guardName = none)
    (rest : List Directive) :
    run (.ifndefLine guardName :: .defineLine guardName "" :: rest)
        { env := env, conds := [], executed := [] }
      = run rest { env := env.define guardName "", conds := [true], executed := [guardName] } := by
  simp [run, step, Env.isDefined, hg, PPState.active]

theorem run_endif (st : PPState) (c : Bool) (cs : List Bool) (h : st.conds = c :: cs) :
    run [.endifLine] st = .ok { st with conds := cs } := by
  simp [run, step, h]

/-- The state in which the preprocessor leaves the header. -/
theorem run_constants_h (env : Env) :
    run constants_h { env := env, conds := [], executed := [] }
      = .ok (if env.isDefined guardName then { env := env, conds := [], executed := [] }
             else { env := fun n => (env n).orElse fun _ => headerDefault n,
                    conds := [],
                    executed := guardName :: constantNames.filter fun n => !env.isDefined n }) := by
  rw [constants_h_shape]
  cases hg : env guardName with
  | some v =>
      rw [run_guard_defined env v hg, run_guardedBlocks_skipped _ _ (by simp [PPState.active]),
        run_endif _ false [] rfl]
      simp [Env.isDefined, hg]
  | none =>
      rw [run_guard_undefined env hg, run_guardedBlocks _ _ (by simp [PPState.active]),
        run_endif _ true [] (by rw [foldl_guardedDefine_conds])]
      simp only [Env.isDefined, hg, Option.isSome_none, Bool.false_eq_true, if_false]
      congr 1
      have hnd : (defaultsTable.map Prod.fst).Nodup := by
        rw [defaultsTable_names]; decide
      have henv : (List.foldl guardedDefine
            { env := env.define guardName "", conds := [true], executed := [guardName] }
            defaultsTable).env = fun n => (env n).orElse fun _ => headerDefault n := by
        funext n
        rw [foldl_guardedDefine_env, headerDefault_eq]
        by_cases h : guardName = n
        · subst h
          simp [Env.define, hg]
        · have h2 : n ≠ guardName := fun e => h e.symm
          simp [Env.define, h, h2]
      have hex : (List.foldl guardedDefine
            { env := env.define guardName "", conds := [true], executed := [guardName] }
            defaultsTable).executed
            = guardName :: constantNames.filter fun n => !env.isDefined n := by
        rw [foldl_guardedDefine_executed _ _ hnd, defaultsTable_names]
        simp only [List.singleton_append, List.cons.injEq, true_and]
        apply List.filter_congr
        intro x hx
        have hxg : x ≠ guardName := fun e => guardName_not_constant (e ▸ hx)
        simp [Env.isDefined, Env.define, hxg]
      rw [henv, hex]
      rfl

/-- Including the header never fails. With the guard defined nothing changes and no
`#define` is executed; otherwise every name keeps the definition it had or gets the
header's, and the `#define`s executed are the guard's and those of the constant names
not defined before. -/
theorem includeHeader_eq (env : Env) :
    includeHeader env
      = .ok (if env.isDefined guardName then (env, [])
             else (fun n => (env n).orElse fun _ => headerDefault n,
                   guardName :: constantNames.filter fun n => !env.isDefined n)) := by
  unfold includeHeader includeFile
  rw [run_constants_h]
  cases env.isDefined guardName <;> simp

theorem resolvedAfterInclude_eq (env : Env) (n : String) :
    resolvedAfterInclude env n
      = .ok (if env.isDefined guardName then env n
             else (env n).orElse fun _ => headerDefault n) := by
  unfold resolvedAfterInclude
  rw [includeHeader_eq]
  cases env.isDefined guardName <;> simp

/-! ## The values of the default literals -/

theorem defaultValue_eq_map (name : String) :
    defaultValue name = (defaultLit name).map DecLit.toRat := by
  unfold defaultValue defaultLit replacementValue
  cases headerDefault name <;> rfl

theorem defaultValue_of_lit (name : String) (m : Nat) (e : Int)
    (h : defaultLit name = some { mantissa := m, exponent := e }) :
    defaultValue name = some ((m : ℚ) * (10 : ℚ) ^ e) := by
  rw [defaultValue_eq_map, h]
  rfl

theorem defaultLit_C_LIGHT :
    defaultLit "C_LIGHT" = some { mantissa := 2997924580, exponent := -1 } := by
  decide

theorem defaultValue_C_LIGHT :
    defaultValue "C_LIGHT" = some (299792458.0 : ℚ) := by
  rw [defaultValue_of_lit _ _ _ defaultLit_C_LIGHT]
  norm_num

theorem defaultLit_EPSILON_0 :
    defaultLit "EPSILON_0" = some { mantissa := 8854187817620, exponent := -24 } := by
  decide

theorem defaultValue_EPSILON_0 :
    defaultValue "EPSILON_0" = some (8.854187817620e-12 : ℚ) := by
  rw [defaultValue_of_lit _ _ _ defaultLit_EPSILON_0]
  norm_num

theorem defaultLit_PI :
    defaultLit "PI" = some { mantissa := 31415926535897932384626433832795028841971693993751, exponent := -49 } := by
  decide

theorem defaultValue_PI :
    defaultValue "PI" = some (3.1415926535897932384626433832795028841971693993751 : ℚ) := by
  rw [defaultValue_of_lit _ _ _ defaultLit_PI]
  norm_num

theorem defaultLit_DEG2RAD :
    defaultLit "DEG2RAD" = some { mantissa := 174532925199432957692369076848861271344287188854, exponent := -49 } := by
  decide

theorem defaultValue_DEG2RAD :
    defaultValue "DEG2RAD" = some (0.0174532925199432957692369076848861271344287188854 : ℚ) := by
  rw [defaultValue_of_lit _ _ _ defaultLit_DEG2RAD]
  norm_num

theorem defaultLit_RAD2DEG :
    defaultLit "RAD2DEG" = some { mantissa := 5729577951308232087679815481410517033240547246656442, exponent := -50 } := by
  decide

theorem defaultValue_RAD2DEG :
    defaultValue "RAD2DEG" = some (57.29577951308232087679815481410517033240547246656442 : ℚ) := by
  rw [defaultValue_of_lit _ _ _ defaultLit_RAD2DEG]
  norm_num

theorem defaultLit_SQRT_PI :
    defaultLit "SQRT_PI" = some { mantissa := 17724538509055160272981674833411451827975494561224, exponent := -49 } := by
  decide

theorem defaultValue_SQRT_PI :
    defaultValue "SQRT_PI" = some (1.7724538509055160272981674833411451827975494561224 : ℚ) := by
  rw [defaultValue_of_lit _ _ _ defaultLit_SQRT_PI]
  norm_num

theorem defaultLit_QELEM :
    defaultLit "QELEM" = some { mantissa := 160217662, exponent := -27 } := by
  decide

theorem defaultValue_QELEM :
    defaultValue "QELEM" = some (1.60217662e-19 : ℚ) := by
  rw [defaultValue_of_lit _ _ _ defaultLit_QELEM]
  norm_num

theorem defaultLit_MPROTON_GEVPERC :
    defaultLit "MPROTON_GEVPERC" = some { mantissa := 93827208816, exponent := -11 } := by
  decide

theorem defaultValue_MPROTON_GEVPERC :
    defaultValue "MPROTON_GEVPERC" = some (0.93827208816 : ℚ) := by
  rw [defaultValue_of_lit _ _ _ defaultLit_MPROTON_GEVPERC]
  norm_num

theorem defaultLit_MELECTRON_GEVPERC :
    defaultLit "MELECTRON_GEVPERC" = some { mantissa := 51099895000, exponent := -14 } := by
  decide

theorem defaultValue_MELECTRON_GEVPERC :
    defaultValue "MELECTRON_GEVPERC" = some (0.00051099895000 : ℚ) := by
  rw [defaultValue_of_lit _ _ _ defaultLit_MELECTRON_GEVPERC]
  norm_num

theorem defaultLit_MELECTRON_KG :
    defaultLit "MELECTRON_KG" = some { mantissa := 91093837015, exponent := -41 } := by
  decide

theorem defaultValue_MELECTRON_KG :
    defaultValue "MELECTRON_KG" = some (9.1093837015e-31 : ℚ) := by
  rw [defaultValue_of_lit _ _ _ defaultLit_MELECTRON_KG]
  norm_num

theorem defaultLit_ALPHA :
    defaultLit "ALPHA" = some { mantissa := 729735257, exponent := -11 } := by
  decide

theorem defaultValue_ALPHA :
    defaultValue "ALPHA" = some (7.29735257e-3 : ℚ) := by
  rw [defaultValue_of_lit _ _ _ defaultLit_ALPHA]
  norm_num

theorem defaultLit_HBAR_GEVS :
    defaultLit "HBAR_GEVS" = some { mantissa := 6582119569, exponent := -34 } := by
  decide

theorem defaultValue_HBAR_GEVS :
    defaultValue "HBAR_GEVS" = some (6.582119569e-25 : ℚ) := by
  rw [defaultValue_of_lit _ _ _ defaultLit_HBAR_GEVS]
  norm_num

theorem defaultLit_TWO_OVER_SQRT_PI :
    defaultLit "TWO_OVER_SQRT_PI" = some { mantissa := 1128379167095512573896158903121545171688101258657997713688171443418, exponent := -66 } := by
  decide

theorem defaultValue_TWO_OVER_SQRT_PI :
    defaultValue "TWO_OVER_SQRT_PI" = some (1.128379167095512573896158903121545171688101258657997713688171443418 : ℚ) := by
  rw [defaultValue_of_lit _ _ _ defaultLit_TWO_OVER_SQRT_PI]
  norm_num

theorem defaultLit_SQRT_TWO :
    defaultLit "SQRT_TWO" = some { mantissa := 1414213562373095048801688724209698078569671875376948073176679738, exponent := -63 } := by
  decide

theorem defaultValue_SQRT_TWO :
    defaultValue "SQRT_TWO" = some (1.414213562373095048801688724209698078569671875376948073176679738 : ℚ) := by
  rw [defaultValue_of_lit _ _ _ defaultLit_SQRT_TWO]
  norm_num

theorem defaultLit_REDUCED_COMPTON :
    defaultLit "REDUCED_COMPTON" = some { mantissa := 38615926796089057, exponent := -29 } := by
  decide

theorem defaultValue_REDUCED_COMPTON :
    defaultValue "REDUCED_COMPTON" = some (3.8615926796089057e-13 : ℚ) := by
  rw [defaultValue_of_lit _ _ _ defaultLit_REDUCED_COMPTON]
  norm_num

theorem defaultLit_REAL_EPSILON :
    defaultLit "REAL_EPSILON" = some { mantissa := 222044604925031, exponent := -30 } := by
  decide

theorem defaultValue_REAL_EPSILON :
    defaultValue "REAL_EPSILON" = some (2.22044604925031e-16 : ℚ) := by
  rw [defaultValue_of_lit _ _ _ defaultLit_REAL_EPSILON]
  norm_num

/-! ## Facts shared by the properties below -/

theorem headerDefault_guardName : headerDefault guardName = some "" := by
  decide

theorem ne_guardName_of_mem {n : String} (hn : n ∈ constantNames) : n ≠ guardName :=
  fun e => guardName_not_constant (e ▸ hn)

/-- With the guard already defined, an inclusion changes nothing and executes no
`#define`. -/
theorem includeHeader_of_guard (env : Env) (h : env.isDefined guardName = true) :
    includeHeader env = .ok (env, []) := by
  rw [includeHeader_eq, h]
  rfl

/-- After an inclusion the guard is defined. -/
theorem guard_defined_after (env env1 : Env) (ex : List String)
    (h : includeHeader env = .ok (env1, ex)) : env1.isDefined guardName = true := by
  rw [includeHeader_eq] at h
  cases hg : env.isDefined guardName with
  | true =>
      rw [hg] at h
      simp only [if_true, Except.ok.injEq, Prod.mk.injEq] at h
      rw [← h.1]; exact hg
  | false =>
      rw [hg] at h
      simp only [Bool.false_eq_true, if_false, Except.ok.injEq, Prod.mk.injEq] at h
      rw [← h.1]
      have : env guardName = none := by
        simpa [Env.isDefined] using hg
      simp [Env.isDefined, this, headerDefault_guardName]

set_option maxRecDepth 100000 in
theorem default_is_plain_literal_check :
    ∀ n ∈ constantNames, ((headerDefault n).any fun body =>
      decide ((replacementLit body).isSome = true ∧
        ∀ m ∈ constantNames, ¬ m.toList <:+: body.toList)) = true := by
  decide

/-- Every constant name has a default in the header; the default is a decimal constant,
possibly parenthesised, and none of the constant names occurs in its text. -/
theorem default_is_plain_literal (n : String) (hn : n ∈ constantNames) :
    ∃ body, headerDefault n = some body ∧ (replacementLit body).isSome = true ∧
      ∀ m ∈ constantNames, ¬ m.toList <:+: body.toList := by
  have h := default_is_plain_literal_check n hn
  cases hb : headerDefault n with
  | none => simp [hb] at h
  | some body =>
      rw [hb] at h
      simp only [Option.any_some, decide_eq_true_eq] at h
      exact ⟨body, rfl, h⟩

theorem specTable_names : specTable.map SpecRow.name = constantNames := by
  rfl

/-- The value of each default literal agrees with its row of the table. -/
theorem default_agrees_with_row (row : SpecRow) (hrow : row ∈ specTable) :
    ∃ q, defaultValue row.name = some q ∧ row.agrees q := by
  simp only [specTable, List.mem_cons, List.mem_singleton, List.not_mem_nil, or_false] at hrow
  rcases hrow with h | h | h | h | h | h | h | h | h | h | h | h | h | h | h | h <;> subst h
  · exact ⟨_, defaultValue_C_LIGHT, by norm_num [SpecRow.agrees]⟩
  · exact ⟨_, defaultValue_EPSILON_0, by norm_num [SpecRow.agrees]⟩
  · exact ⟨_, defaultValue_PI, by norm_num [SpecRow.agrees, abs_le]⟩
  · exact ⟨_, defaultValue_DEG2RAD, by norm_num [SpecRow.agrees, abs_le]⟩
  · exact ⟨_, defaultValue_RAD2DEG, by norm_num [SpecRow.agrees, abs_le]⟩
  · exact ⟨_, defaultValue_SQRT_PI, by norm_num [SpecRow.agrees, abs_le]⟩
  · exact ⟨_, defaultValue_QELEM, by norm_num [SpecRow.agrees]⟩
  · exact ⟨_, defaultValue_MPROTON_GEVPERC, by norm_num [SpecRow.agrees]⟩
  · exact ⟨_, defaultValue_MELECTRON_GEVPERC, by norm_num [SpecRow.agrees]⟩
  · exact ⟨_, defaultValue_MELECTRON_KG, by norm_num [SpecRow.agrees]⟩
  · exact ⟨_, defaultValue_ALPHA, by norm_num [SpecRow.agrees]⟩
  · exact ⟨_, defaultValue_HBAR_GEVS, by norm_num [SpecRow.agrees]⟩
  · exact ⟨_, defaultValue_TWO_OVER_SQRT_PI, by norm_num [SpecRow.agrees, abs_le]⟩
  · exact ⟨_, defaultValue_SQRT_TWO, by norm_num [SpecRow.agrees, abs_le]⟩
  · exact ⟨_, defaultValue_REDUCED_COMPTON, by norm_num [SpecRow.agrees]⟩
  · exact ⟨_, defaultValue_REAL_EPSILON, by norm_num [SpecRow.agrees]⟩

/-! ## The properties -/

/-- C1: for each row of the table of section 3, when the header is included in an
environment where neither the row's name nor `XFIELDS_CONSTANTS_H` is defined, the
inclusion succeeds and the name resolves to a replacement list whose value as a decimal
rational agrees with the row: equal to the listed value for a row listed in full, within
one unit of the last listed decimal place for a row listed with an ellipsis. The names
of the rows of the table are the sixteen names, in order. -/
theorem C1_default_resolves_to_listed_value (env : Env) (row : SpecRow)
    (hrow : row ∈ specTable) (hguard : env guardName = none) (hname : env row.name = none) :
    specTable.map SpecRow.name = constantNames ∧
    ∃ body q, resolvedAfterInclude env row.name = .ok (some body) ∧
      replacementValue body = some q ∧ row.agrees q := by
  constructor
  · exact specTable_names
  · obtain ⟨q, hq, hagree⟩ := default_agrees_with_row row hrow
    unfold defaultValue at hq
    cases hb : headerDefault row.name with
    | none => rw [hb] at hq; cases hq
    | some body =>
        rw [hb] at hq
        refine ⟨body, q, ?_, hq, hagree⟩
        rw [resolvedAfterInclude_eq]
        simp [Env.isDefined, hguard, hname, hb]

/-- Witness of C1 at the empty environment and the row of `C_LIGHT`, listed in full as
`299792458.0`. -/
theorem C1_default_resolves_to_listed_value_witness :
    Env.empty guardName = none ∧ Env.empty "C_LIGHT" = none ∧
    (specTable.map SpecRow.name = constantNames ∧
     ∃ body q, resolvedAfterInclude Env.empty "C_LIGHT" = .ok (some body) ∧
       replacementValue body = some q ∧
       SpecRow.agrees { name := "C_LIGHT", listed := 299792458.0, ellipsisPlaces := none } q) :=
  ⟨rfl, rfl,
    C1_default_resolves_to_listed_value Env.empty
      { name := "C_LIGHT", listed := 299792458.0, ellipsisPlaces := none }
      (List.mem_cons_self _ _) rfl rfl⟩

/-- C2: for each of the sixteen names and every replacement list `V`, if the name
is defined to `V` before the header is included, the inclusion succeeds, the name
still resolves to `V` afterwards, and the inclusion did not execute a `#define` of
that name. -/
theorem C2_predefined_name_is_kept (env : Env) (n : String) (hn : n ∈ constantNames)
    (V : String) (hV : env n = some V) :
    resolvedAfterInclude env n = .ok (some V) ∧
    ∃ env1 ex, includeHeader env = .ok (env1, ex) ∧ env1 n = some V ∧ n ∉ ex := by
  constructor
  · rw [resolvedAfterInclude_eq]
    cases env.isDefined guardName <;> simp [hV]
  · rw [includeHeader_eq]
    cases env.isDefined guardName with
    | true => exact ⟨_, _, rfl, hV, by simp⟩
    | false =>
        refine ⟨_, _, rfl, by simp [hV], ?_⟩
        simp [ne_guardName_of_mem hn, Env.isDefined, hV]

/-- Witness of C2: `QELEM` defined to `1.0` beforehand still resolves to `1.0`. -/
theorem C2_predefined_name_is_kept_witness :
    "QELEM" ∈ constantNames ∧ (Env.empty.define "QELEM" "1.0") "QELEM" = some "1.0" ∧
    (resolvedAfterInclude (Env.empty.define "QELEM" "1.0") "QELEM" = .ok (some "1.0") ∧
     ∃ env1 ex, includeHeader (Env.empty.define "QELEM" "1.0") = .ok (env1, ex) ∧
       env1 "QELEM" = some "1.0" ∧ "QELEM" ∉ ex) :=
  ⟨by decide, by decide,
    C2_predefined_name_is_kept (Env.empty.define "QELEM" "1.0") "QELEM" (by decide) "1.0"
      (by decide)⟩

/-- C3: inclusion is idempotent. For every initial environment the first inclusion
succeeds with some environment `env1`; including the header again in `env1` succeeds,
leaves exactly `env1` and executes no `#define`; and so does every further inclusion:
two or more inclusions in a row end in the same environment as one. -/
theorem C3_inclusion_is_idempotent (env : Env) :
    ∃ env1 ex, includeHeader env = .ok (env1, ex) ∧
      includeTimes 1 env = .ok (env1, ex) ∧
      includeHeader env1 = .ok (env1, []) ∧
      ∀ k, includeTimes (k + 2) env = .ok (env1, []) := by
  obtain ⟨env1, ex, h1⟩ : ∃ env1 ex, includeHeader env = .ok (env1, ex) :=
    ⟨_, _, includeHeader_eq env⟩
  have h2 : includeHeader env1 = .ok (env1, []) :=
    includeHeader_of_guard env1 (guard_defined_after env env1 ex h1)
  refine ⟨env1, ex, h1, ?_, h2, ?_⟩
  · simp [includeTimes, h1]
  · intro k
    induction k with
    | zero => simp [includeTimes, h1, h2]
    | succ k ih =>
        rw [includeTimes, ih]
        exact h2

/-- C4, counterexample: when the consumer has defined `XFIELDS_CONSTANTS_H` (and nothing
else) before the inclusion, the whole header is skipped and `C_LIGHT`, one of the sixteen
names, is still not defined afterwards. -/
theorem C4_counterexample_guard_predefined :
    "C_LIGHT" ∈ constantNames ∧
    resolvedAfterInclude (Env.empty.define "XFIELDS_CONSTANTS_H" "") "C_LIGHT" = .ok none := by
  refine ⟨by decide, ?_⟩
  rw [resolvedAfterInclude_eq]
  rfl

/-- C4, amended: the inclusion never fails, and afterwards each of the sixteen names
is defined and resolves to some replacement list, provided that before the inclusion
`XFIELDS_CONSTANTS_H` was not defined or the name itself was. -/
theorem C4_every_name_resolves_unless_guard_predefined (env : Env) (n : String)
    (hn : n ∈ constantNames)
    (h : env.isDefined guardName = false ∨ env.isDefined n = true) :
    ∃ body, resolvedAfterInclude env n = .ok (some body) := by
  rw [resolvedAfterInclude_eq]
  obtain ⟨d, hd, -⟩ := default_is_plain_literal n hn
  cases hg : env.isDefined guardName with
  | true =>
      rcases h with h | h
      · rw [hg] at h; cases h
      · cases hv : env n with
        | none => simp [Env.isDefined, hv] at h
        | some v => exact ⟨v, by simp⟩
  | false =>
      cases hv : env n with
      | none => exact ⟨d, by simp [hd]⟩
      | some v => exact ⟨v, by simp⟩

/-- Witness of C4 as amended: in the empty environment `REAL_EPSILON` resolves to some
replacement list after the inclusion. -/
theorem C4_every_name_resolves_unless_guard_predefined_witness :
    "REAL_EPSILON" ∈ constantNames ∧
    (Env.empty.isDefined guardName = false ∨ Env.empty.isDefined "REAL_EPSILON" = true) ∧
    ∃ body, resolvedAfterInclude Env.empty "REAL_EPSILON" = .ok (some body) :=
  ⟨by decide, Or.inl rfl,
    C4_every_name_resolves_unless_guard_predefined Env.empty "REAL_EPSILON" (by decide)
      (Or.inl rfl)⟩

/-- A set of names drawn from the sixteen constant names does not contain the include
guard. -/
theorem guardName_not_mem_of_subset (S : List String) (hS : ∀ s ∈ S, s ∈ constantNames) :
    guardName ∉ S :=
  fun h => guardName_not_constant (hS _ h)

/-- C5: the sixteen names are guarded independently. For every set `S` of names the
consumer defines before the inclusion that leaves the include guard free, so in
particular for every set `S` of the sixteen names, and whatever replacement lists the
names of `S` are given, every one of the sixteen names that is not in `S` resolves to the
header's default for it after the inclusion; that default is a decimal constant, possibly
parenthesised, in whose text none of the sixteen names occurs. -/
theorem C5_names_guarded_independently (S : List String) (val : String → String)
    (hS : guardName ∉ S) (n : String) (hn : n ∈ constantNames) (hnS : n ∉ S) :
    resolvedAfterInclude (Env.ofDefs S val) n = .ok (headerDefault n) ∧
    ∃ body, headerDefault n = some body ∧ (replacementLit body).isSome = true ∧
      ∀ m ∈ constantNames, ¬ m.toList <:+: body.toList := by
  refine ⟨?_, default_is_plain_literal n hn⟩
  rw [resolvedAfterInclude_eq]
  simp [Env.isDefined, Env.ofDefs, hS, hnS]

/-- Witness of C5: with `QELEM` and `PI`, two of the sixteen names, defined by the
consumer, `C_LIGHT` resolves to the header's default. -/
theorem C5_names_guarded_independently_witness :
    guardName ∉ ["QELEM", "PI"] ∧ "C_LIGHT" ∈ constantNames ∧ "C_LIGHT" ∉ ["QELEM", "PI"] ∧
    (resolvedAfterInclude (Env.ofDefs ["QELEM", "PI"] fun _ => "1.0") "C_LIGHT"
        = .ok (headerDefault "C_LIGHT") ∧
     ∃ body, headerDefault "C_LIGHT" = some body ∧ (replacementLit body).isSome = true ∧
       ∀ m ∈ constantNames, ¬ m.toList <:+: body.toList) :=
  ⟨by decide, by decide, by decide,
    C5_names_guarded_independently ["QELEM", "PI"] (fun _ => "1.0") (by decide) "C_LIGHT"
      (by decide) (by decide)⟩

/-- C6: the default literals of `DEG2RAD` and `RAD2DEG`, at the decimal values written in
the header, satisfy `|DEG2RAD * RAD2DEG - 1| < 1e-12`. -/
theorem C6_deg2rad_rad2deg_reciprocal :
    ∃ d r, defaultValue "DEG2RAD" = some d ∧ defaultValue "RAD2DEG" = some r ∧
      |d * r - 1| < 1e-12 :=
  ⟨_, _, defaultValue_DEG2RAD, defaultValue_RAD2DEG, by rw [abs_lt]; constructor <;> norm_num⟩

/-- C7: the default literals of `SQRT_PI` and `PI`, at the decimal values written in the
header, satisfy `|SQRT_PI * SQRT_PI - PI| < 1e-12`. -/
theorem C7_sqrt_pi_squares_to_pi :
    ∃ s p, defaultValue "SQRT_PI" = some s ∧ defaultValue "PI" = some p ∧
      |s * s - p| < 1e-12 :=
  ⟨_, _, defaultValue_SQRT_PI, defaultValue_PI, by rw [abs_lt]; constructor <;> norm_num⟩

/-- C8: the default literals of `TWO_OVER_SQRT_PI` and `SQRT_PI`, at the decimal values
written in the header, satisfy `|TWO_OVER_SQRT_PI * SQRT_PI - 2| < 1e-12`. -/
theorem C8_two_over_sqrt_pi_times_sqrt_pi :
    ∃ t s, defaultValue "TWO_OVER_SQRT_PI" = some t ∧ defaultValue "SQRT_PI" = some s ∧
      |t * s - 2| < 1e-12 :=
  ⟨_, _, defaultValue_TWO_OVER_SQRT_PI, defaultValue_SQRT_PI,
    by rw [abs_lt]; constructor <;> norm_num⟩

/-- C9: the default literals of `REDUCED_COMPTON`, `MELECTRON_GEVPERC`, `HBAR_GEVS` and
`C_LIGHT`, at the decimal values written in the header, satisfy
`|REDUCED_COMPTON * MELECTRON_GEVPERC - HBAR_GEVS * C_LIGHT| < 1e-9 * HBAR_GEVS * C_LIGHT`,
and `MELECTRON_GEVPERC` and `HBAR_GEVS * C_LIGHT` are positive, so that this is a relative
error below `1e-9` between `REDUCED_COMPTON` and `HBAR_GEVS * C_LIGHT / MELECTRON_GEVPERC`. -/
theorem C9_reduced_compton_consistent :
    ∃ rc me hb c, defaultValue "REDUCED_COMPTON" = some rc ∧
      defaultValue "MELECTRON_GEVPERC" = some me ∧
      defaultValue "HBAR_GEVS" = some hb ∧ defaultValue "C_LIGHT" = some c ∧
      0 < me ∧ 0 < hb * c ∧
      |rc * me - hb * c| < 1e-9 * hb * c ∧
      |rc - hb * c / me| < 1e-9 * (hb * c / me) :=
  ⟨_, _, _, _, defaultValue_REDUCED_COMPTON, defaultValue_MELECTRON_GEVPERC,
    defaultValue_HBAR_GEVS, defaultValue_C_LIGHT, by norm_num, by norm_num,
    by rw [abs_lt]; constructor <;> norm_num, by rw [abs_lt]; constructor <;> norm_num⟩

/-- C10: the default literals of `DEG2RAD` and `PI`, at the decimal values written in the
header, satisfy `|180 * DEG2RAD - PI| < 1e-12`. -/
theorem C10_deg2rad_consistent_with_pi :
    ∃ d p, defaultValue "DEG2RAD" = some d ∧ defaultValue "PI" = some p ∧
      |180 * d - p| < 1e-12 :=
  ⟨_, _, defaultValue_DEG2RAD, defaultValue_PI, by rw [abs_lt]; constructor <;> norm_num⟩

end Xfields
